import Mathlib

/-!
Verification of the GLB container parser and typed-accessor decoder of
`src/extract-glb.ts` against its design specification.

The two core functions, `parseGLB` (lines 28–66) and `extractAccessorData`
(lines 68–120), are shallowly embedded below.  Buffers are `List Nat`
(one entry per byte; a genuine Node `Buffer` always holds octets, values
0–255).  JavaScript machine behaviour is made explicit where it matters:

* `Buffer.prototype.subarray` / `ArrayBuffer.prototype.slice` clamp their
  range to the buffer (modelled with `List.drop`/`List.take`);
* `Buffer.prototype.readUInt32LE` throws `ERR_OUT_OF_RANGE` when the four
  bytes would run past the end (modelled with `Except`);
* `Buffer.prototype.toString('ascii')` clears the high bit of every byte
  before decoding (Node's documented ascii decode), modelled as `· % 128`;
* `new Int16Array(arrayBuffer)` (and the other width-2/4 views) throws a
  `RangeError` when the byte length is not a multiple of the element size
  (modelled by an explicit divisibility test);
* the arithmetic on an `undefined` type-size (an accessor whose `type` tag
  is not in `TYPE_SIZES`) yields `NaN`, and `subarray(from, NaN)` coerces
  the `NaN` end index to `0` (ECMAScript `ToIntegerOrInfinity`), producing
  an empty window.

The `JSON.parse` of the metadata chunk (line 49 of the source) is not
re-implemented: inside `parseGLB` its only observable effect is whether it
throws a `SyntaxError`, so the embedding abstracts it as an explicit
success-oracle parameter `jsonParse : List Nat → Bool` of `parseGLB` and
fails with `GLBError.syntaxError` exactly where line 49 throws.  The
universally quantified parse theorems hold for every oracle — hence for
the true success predicate of `JSON.parse(bytes.toString('utf8'))` — and
the closed theorems instantiate it with an oracle that agrees with
`JSON.parse` on every metadata-byte list their buffers consult (all carry
the valid JSON text `{}`).  The metadata bytes themselves are returned
raw, as the specification's ContainerParser contract describes.
-/

/-- One decoded numeric component.  Integer component types carry their
value; the FLOAT component type carries the raw little-endian 32-bit
pattern (the numeric reading of that pattern is irrelevant to every claim,
which concern counts, grouping, windows and field layout). -/
inductive ComponentValue where
  | int (value : Int)
  | floatBits (bits : Nat)
deriving DecidableEq

/-- One entry of the grouped output: scalar shapes push the bare number
(line 94 of the source), every other shape pushes the slice of
`componentsPerElement` numbers (line 96). -/
inductive GroupedValue where
  | num (value : ComponentValue)
  | vec (values : List ComponentValue)
deriving DecidableEq

/-- The array-reinterpretation kind of a component type (the `array` field
of `COMPONENT_TYPES`, line 7–14 of the source). -/
inductive CompKind where
  | i8 | u8 | i16 | u16 | u32 | f32
deriving DecidableEq

/-- One entry of the `COMPONENT_TYPES` table: display name, byte size,
typed-array kind. -/
structure CompTypeEntry where
  name : String
  size : Nat
  kind : CompKind
deriving DecidableEq

/-- The fixed component-type table (source lines 7–14). -/
def COMPONENT_TYPES : Nat → Option CompTypeEntry
  | 5120 => some ⟨"BYTE", 1, .i8⟩
  | 5121 => some ⟨"UNSIGNED_BYTE", 1, .u8⟩
  | 5122 => some ⟨"SHORT", 2, .i16⟩
  | 5123 => some ⟨"UNSIGNED_SHORT", 2, .u16⟩
  | 5125 => some ⟨"UNSIGNED_INT", 4, .u32⟩
  | 5126 => some ⟨"FLOAT", 4, .f32⟩
  | _ => none

/-- The fixed type-shape table (source lines 16–24). -/
def TYPE_SIZES : String → Option Nat
  | "SCALAR" => some 1
  | "VEC2" => some 2
  | "VEC3" => some 3
  | "VEC4" => some 4
  | "MAT2" => some 4
  | "MAT3" => some 9
  | "MAT4" => some 16
  | _ => none

/-- Source line 26. -/
def TRUNCATE_LIMIT : Nat := 20

/-- Byte size of a typed-array element (`BYTES_PER_ELEMENT`). -/
def compSize : CompKind → Nat
  | .i8 => 1
  | .u8 => 1
  | .i16 => 2
  | .u16 => 2
  | .u32 => 4
  | .f32 => 4

/-- Little-endian read of a byte list as an unsigned integer (each entry
taken mod 256; genuine buffer bytes are already below 256). -/
def decodeLE (bytes : List Nat) : Nat :=
  bytes.foldr (fun b acc => b % 256 + 256 * acc) 0

/-- Two's-complement reading of an unsigned value `n` below the modulus
`m` (256 for Int8Array, 65536 for Int16Array). -/
def toSigned (n m : Nat) : Int :=
  if n < m / 2 then (n : Int) else (n : Int) - (m : Int)

/-- Decode one element's bytes according to the typed-array kind. -/
def decodeComp (k : CompKind) (chunk : List Nat) : ComponentValue :=
  match k with
  | .i8 => .int (toSigned (decodeLE chunk) 256)
  | .u8 => .int (decodeLE chunk)
  | .i16 => .int (toSigned (decodeLE chunk) 65536)
  | .u16 => .int (decodeLE chunk)
  | .u32 => .int (decodeLE chunk)
  | .f32 => .floatBits (decodeLE chunk)

/-- The typed-array view of a byte window (source line 85 followed by
`Array.from`, line 88): element `i` of `new T(arrayBuffer)` is decoded
from bytes `[i*s, (i+1)*s)` of the window, and the view holds
`byteLength / s` elements (construction is only reached after the
byte-length divisibility check modelled in `extractAccessorData`). -/
def toComponents (k : CompKind) (bytes : List Nat) : List ComponentValue :=
  (List.range (bytes.length / compSize k)).map
    (fun i => decodeComp k ((bytes.drop (i * compSize k)).take (compSize k)))

/-- The grouping loop (source lines 91–98): index `i` steps by `typeSize`,
so iteration `j` looks at `values[j*typeSize]`; a scalar shape pushes the
bare value, any other shape pushes `values.slice(i, i + typeSize)`.  The
loop runs `ceil(values.length / typeSize)` times.  (`typeSize = 0` never
arises: `TYPE_SIZES` only yields 1, 2, 3, 4, 9 or 16.) -/
def groupValues (vals : List ComponentValue) (typeSize : Nat) : List GroupedValue :=
  if typeSize = 1 then vals.map GroupedValue.num
  else (List.range ((vals.length + typeSize - 1) / typeSize)).map
    (fun j => GroupedValue.vec ((vals.drop (j * typeSize)).take typeSize))

/-- Concatenation of the grouped output back into a flat component list,
used to state that grouping preserves the original component order. -/
def flattenGroups : List GroupedValue → List ComponentValue
  | [] => []
  | GroupedValue.num v :: gs => v :: flattenGroups gs
  | GroupedValue.vec vs :: gs => vs ++ flattenGroups gs

/-- The accessor descriptor fields `extractAccessorData` reads.  `min` and
`max` are opaque echoes (modelled as optional integer lists). -/
structure Accessor where
  componentType : Nat
  type : String
  count : Nat
  byteOffset : Option Nat
  min : Option (List Int)
  max : Option (List Int)
deriving DecidableEq

/-- The buffer-view descriptor field `extractAccessorData` reads. -/
structure BufferView where
  byteOffset : Option Nat
deriving DecidableEq

/-- The successful result object (source lines 104–117): the echoed
descriptor fields plus the two mutually exclusive value fields, each
optional exactly as on the JavaScript object. -/
structure DecodedAccessor where
  type : String
  componentType : String
  count : Nat
  min : Option (List Int)
  max : Option (List Int)
  values : Option (List GroupedValue)
  truncatedValues : Option (List GroupedValue)
deriving DecidableEq

/-- Outcome of one accessor decode: the `{ error: ... }` early return
(line 73), the `RangeError` thrown by the typed-array construction on a
byte length that is not a multiple of the element size (line 85), or the
result object. -/
inductive DecodeResult where
  | error (message : String)
  | rangeThrow
  | ok (result : DecodedAccessor)
deriving DecidableEq

/-- Source line 77: `(bufferView.byteOffset || 0) + (accessor.byteOffset || 0)`
(`|| 0` sends both `undefined` and `0` to `0`). -/
def accessorByteOffset (accessor : Accessor) (bufferView : BufferView) : Nat :=
  bufferView.byteOffset.getD 0 + accessor.byteOffset.getD 0

/-- Source lines 78–84: the requested byte window
`[byteOffset, byteOffset + count*elementSize)` clamped to the buffer by
`subarray`/`slice`.  When the type shape is unrecognized, `typeSize` is
`undefined`, the computed byte length is `NaN`, and `subarray`'s `NaN` end
index coerces to 0, so the window is empty. -/
def rawWindow (componentType : CompTypeEntry) (typeSize : Option Nat)
    (count off : Nat) (bin : List Nat) : List Nat :=
  match typeSize with
  | some ts => (bin.drop off).take (count * (componentType.size * ts))
  | none => []

/-- Source lines 85–98 applied to the sliced window: reinterpret as a typed
array, convert to a plain list, group by `typeSize`.  With an unrecognized
shape the loop's step is `NaN`; a single iteration would push
`values.slice(i, NaN) = []` — but that branch only runs on a non-empty
value list, and the window (hence the value list) is always empty there. -/
def groupWindow (componentType : CompTypeEntry) (typeSize : Option Nat)
    (rawBytes : List Nat) : List GroupedValue :=
  let values := toComponents componentType.kind rawBytes
  match typeSize with
  | some ts => groupValues values ts
  | none => if values = [] then [] else [GroupedValue.vec []]

/-- Shallow embedding of `extractAccessorData` (source lines 68–120). -/
def extractAccessorData (accessor : Accessor) (bufferView : BufferView)
    (binaryBuffer : List Nat) : DecodeResult :=
  match COMPONENT_TYPES accessor.componentType with
  | none => .error ("Unknown component type: " ++ toString accessor.componentType)
  | some componentType =>
    let typeSize := TYPE_SIZES accessor.type
    let byteOffset := accessorByteOffset accessor bufferView
    let rawBytes := rawWindow componentType typeSize accessor.count byteOffset binaryBuffer
    if rawBytes.length % componentType.size ≠ 0 then .rangeThrow
    else
      let groupedValues := groupWindow componentType typeSize rawBytes
      if groupedValues.length > TRUNCATE_LIMIT then
        .ok { type := accessor.type, componentType := componentType.name,
              count := accessor.count, min := accessor.min, max := accessor.max,
              values := none,
              truncatedValues := some (groupedValues.take TRUNCATE_LIMIT) }
      else
        .ok { type := accessor.type, componentType := componentType.name,
              count := accessor.count, min := accessor.min, max := accessor.max,
              values := some groupedValues, truncatedValues := none }

/-- The grouped values `extractAccessorData` computes before its truncation
step (source lines 69–98), or `none` on the error and throw paths. -/
def decodedGroups (accessor : Accessor) (bufferView : BufferView)
    (binaryBuffer : List Nat) : Option (List GroupedValue) :=
  match COMPONENT_TYPES accessor.componentType with
  | none => none
  | some componentType =>
    let typeSize := TYPE_SIZES accessor.type
    let rawBytes := rawWindow componentType typeSize accessor.count
      (accessorByteOffset accessor bufferView) binaryBuffer
    if rawBytes.length % componentType.size ≠ 0 then none
    else some (groupWindow componentType typeSize rawBytes)

/-- Container-parse failures: `invalidSignature` is the throw at source
line 32 (`Invalid GLB file: missing glTF magic`), `missingMetadataChunk`
the throw at line 45 (`Invalid GLB file: first chunk is not JSON`),
`outOfRange` the `ERR_OUT_OF_RANGE` a `readUInt32LE` past the buffer's end
throws inside Node, and `syntaxError` the `SyntaxError` that
`JSON.parse(jsonData.toString('utf8'))` (source line 49) throws when the
metadata chunk's bytes are not valid JSON text. -/
inductive GLBError where
  | invalidSignature
  | missingMetadataChunk
  | outOfRange
  | syntaxError
deriving DecidableEq

/-- Successful `parseGLB` outcome: the metadata chunk's raw bytes (whose
decoding by `JSON.parse` is abstracted by the `jsonParse` success oracle,
see `parseGLB`) and the optional binary chunk's bytes. -/
structure GLBParseOk where
  jsonData : List Nat
  binaryBuffer : Option (List Nat)
deriving DecidableEq

/-- Unchecked little-endian 32-bit read at `off` (clamped; only used below
with the bound that makes it exact). -/
def le32 (buf : List Nat) (off : Nat) : Nat :=
  decodeLE ((buf.drop off).take 4)

/-- `Buffer.prototype.readUInt32LE`: the little-endian read when the four
bytes fit, `ERR_OUT_OF_RANGE` otherwise. -/
def readUInt32LE (buf : List Nat) (off : Nat) : Except GLBError Nat :=
  if off + 4 ≤ buf.length then .ok (le32 buf off) else .error .outOfRange

/-- Shallow embedding of `parseGLB` (source lines 28–66).  The signature
test compares Node's ascii decode of the first four bytes (each byte with
its high bit cleared) against `glTF` = `[103, 108, 84, 70]`.

The `JSON.parse(jsonData.toString('utf8'))` of source line 49 is NOT
re-implemented: its observable effect inside `parseGLB` is only whether it
throws a `SyntaxError`, so the embedding takes that success predicate as
the explicit oracle parameter `jsonParse` (a function of the clamped
metadata bytes) and fails with `syntaxError` — at exactly the program
point of line 49, after the tag check and before the second-chunk logic —
when the oracle rejects them.  Every universally quantified theorem below
holds for every oracle, in particular for the true success predicate of
`JSON.parse`; closed theorems instantiate it with `jsonAcceptsEmptyObject`,
which agrees with `JSON.parse` on the metadata bytes they consult. -/
def parseGLB (jsonParse : List Nat → Bool) (glbBuffer : List Nat) :
    Except GLBError GLBParseOk :=
  if (glbBuffer.take 4).map (fun b => b % 128) ≠ [103, 108, 84, 70] then
    .error .invalidSignature
  else
    match readUInt32LE glbBuffer 8 with
    | .error e => .error e
    | .ok totalLength =>
      match readUInt32LE glbBuffer 12 with
      | .error e => .error e
      | .ok jsonChunkLength =>
        match readUInt32LE glbBuffer 16 with
        | .error e => .error e
        | .ok jsonChunkType =>
          if jsonChunkType ≠ 0x4e4f534a then .error .missingMetadataChunk
          else
            let jsonData := (glbBuffer.drop 20).take jsonChunkLength
            if jsonParse jsonData then
              let offset := 12 + (8 + jsonChunkLength)
              if offset < totalLength then
                match readUInt32LE glbBuffer offset with
                | .error e => .error e
                | .ok binaryChunkLength =>
                  match readUInt32LE glbBuffer (offset + 4) with
                  | .error e => .error e
                  | .ok binaryChunkType =>
                    if binaryChunkType = 0x004e4942 then
                      .ok ⟨jsonData, some ((glbBuffer.drop (offset + 8)).take binaryChunkLength)⟩
                    else
                      .ok ⟨jsonData, none⟩
              else
                .ok ⟨jsonData, none⟩
            else
              .error .syntaxError

deriving instance DecidableEq for Except

/-! ### Basic facts about the two lookup tables and the component decoders -/

theorem compSize_pos (k : CompKind) : 1 ≤ compSize k := by
  cases k <;> decide

theorem COMPONENT_TYPES_size (c : Nat) (ct : CompTypeEntry)
    (h : COMPONENT_TYPES c = some ct) : ct.size = compSize ct.kind ∧ 1 ≤ ct.size := by
  unfold COMPONENT_TYPES at h
  split at h
  all_goals try exact Option.noConfusion h
  all_goals injection h with h; subst h; decide

theorem TYPE_SIZES_pos (s : String) (ts : Nat) (h : TYPE_SIZES s = some ts) : 1 ≤ ts := by
  unfold TYPE_SIZES at h
  split at h
  all_goals try exact Option.noConfusion h
  all_goals injection h with h; omega

theorem toComponents_length (k : CompKind) (bytes : List Nat) :
    (toComponents k bytes).length = bytes.length / compSize k := by
  simp [toComponents]

/-- Ceiling division `(n*ts + ts - 1) / ts` of an exact multiple gives back
the multiplier. -/
theorem ceil_div_mul (n ts : Nat) (h : 1 ≤ ts) : (n * ts + ts - 1) / ts = n := by
  have h1 : n * ts + ts - 1 = (ts - 1) + n * ts := by omega
  rw [h1, Nat.add_mul_div_right _ _ (by omega : 0 < ts),
    Nat.div_eq_of_lt (by omega), Nat.zero_add]

theorem groupValues_scalar (vals : List ComponentValue) :
    groupValues vals 1 = vals.map GroupedValue.num := by
  unfold groupValues
  rw [if_pos rfl]

theorem groupValues_length (ts : Nat) (h : 1 ≤ ts) (vals : List ComponentValue) :
    (groupValues vals ts).length = (vals.length + ts - 1) / ts := by
  unfold groupValues
  split
  · next h1 => subst h1; simp
  · simp

theorem groupValues_length_mul (ts n : Nat) (h : 1 ≤ ts) (vals : List ComponentValue)
    (hlen : vals.length = n * ts) : (groupValues vals ts).length = n := by
  rw [groupValues_length ts h, hlen, ceil_div_mul n ts h]

theorem groupValues_mem_vec (ts n : Nat) (h : 2 ≤ ts) (vals : List ComponentValue)
    (hlen : vals.length = n * ts) (g : GroupedValue) (hg : g ∈ groupValues vals ts) :
    ∃ vs, g = GroupedValue.vec vs ∧ vs.length = ts := by
  unfold groupValues at hg
  rw [if_neg (by omega)] at hg
  simp only [List.mem_map, List.mem_range] at hg
  obtain ⟨j, hj, rfl⟩ := hg
  refine ⟨_, rfl, ?_⟩
  rw [hlen, ceil_div_mul n ts (by omega)] at hj
  have hmul : (j + 1) * ts = j * ts + ts := by ring
  have hle : (j + 1) * ts ≤ n * ts := Nat.mul_le_mul_right ts (by omega)
  simp only [List.length_take, List.length_drop, hlen]
  omega

theorem flattenGroups_append (a b : List GroupedValue) :
    flattenGroups (a ++ b) = flattenGroups a ++ flattenGroups b := by
  induction a with
  | nil => rfl
  | cons g gs ih => cases g <;> simp [flattenGroups, ih]

theorem flattenGroups_map_num (vals : List ComponentValue) :
    flattenGroups (vals.map GroupedValue.num) = vals := by
  induction vals with
  | nil => rfl
  | cons v vs ih => simp [flattenGroups, ih]

theorem flatten_vec_slices (ts : Nat) (vals : List ComponentValue) (k : Nat) :
    flattenGroups ((List.range k).map
        (fun j => GroupedValue.vec ((vals.drop (j * ts)).take ts))) =
      vals.take (k * ts) := by
  induction k with
  | zero => simp [flattenGroups]
  | succ m ih =>
    rw [List.range_succ, List.map_append, flattenGroups_append, ih]
    simp only [List.map_cons, List.map_nil, flattenGroups, List.append_nil]
    rw [Nat.succ_mul, List.take_add]

theorem flattenGroups_take_groupValues (ts n k : Nat) (hts : 1 ≤ ts)
    (vals : List ComponentValue) (hlen : vals.length = n * ts) (hk : k ≤ n) :
    flattenGroups ((groupValues vals ts).take k) = vals.take (k * ts) := by
  unfold groupValues
  split
  · next h1 =>
    subst h1
    rw [← List.map_take, flattenGroups_map_num, Nat.mul_one]
  · next h1 =>
    rw [← List.map_take, List.take_range]
    have hmin : min k ((vals.length + ts - 1) / ts) = k := by
      rw [hlen, ceil_div_mul n ts hts]; omega
    rw [hmin, flatten_vec_slices]

/-! ### Facts about `readUInt32LE` -/

theorem readUInt32LE_of_le (buf : List Nat) (off : Nat) (h : off + 4 ≤ buf.length) :
    readUInt32LE buf off = .ok (le32 buf off) := by
  unfold readUInt32LE
  rw [if_pos h]

theorem readUInt32LE_of_lt (buf : List Nat) (off : Nat) (h : buf.length < off + 4) :
    readUInt32LE buf off = .error .outOfRange := by
  unfold readUInt32LE
  rw [if_neg (by omega)]

/-- `parseGLB` written as one decision tree over the raw buffer: every
32-bit header read is replaced by the bound check it performs plus the
unchecked read `le32`.  Proved equal to `parseGLB` in `parseGLB_eq_spec`;
the parse claims are settled against this normal form. -/
def parseGLBSpec (jsonParse : List Nat → Bool) (glb : List Nat) :
    Except GLBError GLBParseOk :=
  if (glb.take 4).map (fun b => b % 128) ≠ [103, 108, 84, 70] then
    .error .invalidSignature
  else if glb.length < 20 then .error .outOfRange
  else if le32 glb 16 ≠ 0x4e4f534a then .error .missingMetadataChunk
  else if ¬jsonParse ((glb.drop 20).take (le32 glb 12)) then .error .syntaxError
  else if 12 + (8 + le32 glb 12) < le32 glb 8 then
    if glb.length < 12 + (8 + le32 glb 12) + 8 then .error .outOfRange
    else if le32 glb (12 + (8 + le32 glb 12) + 4) = 0x004e4942 then
      .ok ⟨(glb.drop 20).take (le32 glb 12),
        some ((glb.drop (12 + (8 + le32 glb 12) + 8)).take (le32 glb (12 + (8 + le32 glb 12))))⟩
    else .ok ⟨(glb.drop 20).take (le32 glb 12), none⟩
  else .ok ⟨(glb.drop 20).take (le32 glb 12), none⟩

theorem parseGLB_eq_spec (jsonParse : List Nat → Bool) (glb : List Nat) :
    parseGLB jsonParse glb = parseGLBSpec jsonParse glb := by
  unfold parseGLB parseGLBSpec
  by_cases hsig : (glb.take 4).map (fun b => b % 128) ≠ [103, 108, 84, 70]
  · rw [if_pos hsig, if_pos hsig]
  · rw [if_neg hsig, if_neg hsig]
    by_cases h20 : glb.length < 20
    · rw [if_pos h20]
      by_cases h12 : glb.length < 12
      · simp only [readUInt32LE_of_lt glb 8 (by omega)]
      · by_cases h16 : glb.length < 16
        · simp only [readUInt32LE_of_le glb 8 (by omega), readUInt32LE_of_lt glb 12 (by omega)]
        · simp only [readUInt32LE_of_le glb 8 (by omega), readUInt32LE_of_le glb 12 (by omega),
            readUInt32LE_of_lt glb 16 (by omega)]
    · rw [if_neg h20]
      simp only [readUInt32LE_of_le glb 8 (by omega), readUInt32LE_of_le glb 12 (by omega),
        readUInt32LE_of_le glb 16 (by omega)]
      by_cases hty : le32 glb 16 ≠ 0x4e4f534a
      · rw [if_pos hty, if_pos hty]
      · rw [if_neg hty, if_neg hty]
        by_cases hjson : jsonParse ((glb.drop 20).take (le32 glb 12))
        · rw [if_pos hjson, if_neg (not_not_intro hjson)]
          by_cases hoff : 12 + (8 + le32 glb 12) < le32 glb 8
          · rw [if_pos hoff, if_pos hoff]
            by_cases hend : glb.length < 12 + (8 + le32 glb 12) + 8
            · rw [if_pos hend]
              by_cases hend4 : glb.length < 12 + (8 + le32 glb 12) + 4
              · simp only [readUInt32LE_of_lt glb (12 + (8 + le32 glb 12)) (by omega)]
              · simp only [readUInt32LE_of_le glb (12 + (8 + le32 glb 12)) (by omega),
                  readUInt32LE_of_lt glb (12 + (8 + le32 glb 12) + 4) (by omega)]
            · rw [if_neg hend]
              simp only [readUInt32LE_of_le glb (12 + (8 + le32 glb 12)) (by omega),
                readUInt32LE_of_le glb (12 + (8 + le32 glb 12) + 4) (by omega)]
          · rw [if_neg hoff, if_neg hoff]
        · rw [if_neg hjson, if_pos hjson]

/-- A concrete instance of the `JSON.parse` success oracle, used to state
the closed theorems below.  It accepts exactly the two-byte text `{}`
(bytes `[123, 125]`), agreeing with `JSON.parse(bytes.toString('utf8'))`
on every metadata-byte list with which those theorems' buffers reach
source line 49 — each of them carries `{}` there; a buffer that fails
earlier never consults the oracle. -/
def jsonAcceptsEmptyObject (bytes : List Nat) : Bool := bytes == [123, 125]

/-! ### C6 — the signature check -/

/-- C6 counterexample: the buffer starting `0xE7 0x6C 0x54 0x46` has first
four bytes different from the ASCII `glTF` = `[103, 108, 84, 70]`, yet
`parseGLB` does not fail with the signature error: Node's
`toString('ascii')` clears each byte's high bit, `0xE7 % 128 = 103 = 'g'`,
so the magic check passes and the parse instead dies on the out-of-range
total-length read. -/
theorem c6_signature_counterexample :
    (([231, 108, 84, 70] : List Nat).take 4 ≠ [103, 108, 84, 70]) ∧
      parseGLB jsonAcceptsEmptyObject [231, 108, 84, 70] ≠
        Except.error GLBError.invalidSignature :=
  ⟨by decide, by decide⟩

/-- C6 (amended): `parseGLB` fails with the signature error exactly when
the first four bytes, after clearing each byte's high bit (Node's ascii
decoding of `buffer.subarray(0, 4)`), do not spell `glTF`; in particular a
buffer shorter than 4 bytes always fails the signature check, and a buffer
whose first four bytes equal `glTF` never raises the signature error. -/
theorem c6_signature_amended (jsonParse : List Nat → Bool) (glb : List Nat) :
    parseGLB jsonParse glb = Except.error GLBError.invalidSignature ↔
      (glb.take 4).map (fun b => b % 128) ≠ [103, 108, 84, 70] := by
  rw [parseGLB_eq_spec]
  unfold parseGLBSpec
  split_ifs with h1 h2 h3 h4 h5 h6 h7 <;>
    first
      | exact iff_of_true rfl h1
      | exact iff_of_false (by simp) h1

/-- C6 witness: a concrete application of the amended equivalence — the
empty buffer fails the signature check. -/
theorem c6_signature_witness :
    parseGLB jsonAcceptsEmptyObject [] = Except.error GLBError.invalidSignature :=
  (c6_signature_amended jsonAcceptsEmptyObject []).mpr (by decide)

/-! ### C7 — the metadata-chunk tag check -/

/-- C7: for every buffer that passes the signature check and is long
enough for the header and first-chunk-header reads (the little-endian
32-bit chunk length at offset 12 and chunk type at offset 16), `parseGLB`
fails with the missing-metadata-chunk error exactly when the first chunk's
type tag differs from `0x4e4f534a` (ASCII `JSON` read little-endian). -/
theorem c7_missing_metadata_chunk (jsonParse : List Nat → Bool) (glb : List Nat)
    (hlen : 20 ≤ glb.length)
    (hsig : (glb.take 4).map (fun b => b % 128) = [103, 108, 84, 70]) :
    parseGLB jsonParse glb = Except.error GLBError.missingMetadataChunk ↔
      le32 glb 16 ≠ 0x4e4f534a := by
  rw [parseGLB_eq_spec]
  unfold parseGLBSpec
  rw [if_neg (not_not_intro hsig), if_neg (by omega)]
  split_ifs with h1 h2 h3 h4 h5 <;>
    first
      | exact iff_of_true rfl h1
      | exact iff_of_false (by simp) h1

/-- C7 witness: a 20-byte buffer with a zero type tag fails with the
missing-metadata-chunk error. -/
theorem c7_missing_metadata_chunk_witness :
    parseGLB jsonAcceptsEmptyObject
        [103, 108, 84, 70, 0, 0, 0, 0, 0, 0, 0, 0, 0, 0, 0, 0, 0, 0, 0, 0] =
      Except.error GLBError.missingMetadataChunk :=
  (c7_missing_metadata_chunk jsonAcceptsEmptyObject _ (by decide) (by decide)).mpr (by decide)

/-! ### C8 — reads past the buffer's end -/

/-- C8 counterexample: a container whose second chunk declares a
1000-byte binary payload of which only 3 bytes exist.  The chunk-data read
`subarray(30, 30 + 1000)` runs past the 33-byte buffer's end, yet
`parseGLB` does not fail: it silently returns the 3 available bytes
(`[1, 2, 3]`), refuting the claim that every read past the end fails with
a truncation error.  (The metadata chunk holds the valid JSON text `{}`,
bytes `[123, 125]`, which both the real `JSON.parse` and the concrete
oracle `jsonAcceptsEmptyObject` accept.) -/
theorem c8_truncated_reads_counterexample :
    ([103, 108, 84, 70, 2, 0, 0, 0, 100, 0, 0, 0, 2, 0, 0, 0, 74, 83, 79, 78,
        123, 125, 232, 3, 0, 0, 66, 73, 78, 0, 1, 2, 3] : List Nat).length < 30 + 1000 ∧
      parseGLB jsonAcceptsEmptyObject
          [103, 108, 84, 70, 2, 0, 0, 0, 100, 0, 0, 0, 2, 0, 0, 0, 74, 83, 79, 78,
            123, 125, 232, 3, 0, 0, 66, 73, 78, 0, 1, 2, 3] =
        Except.ok ⟨[123, 125], some [1, 2, 3]⟩ :=
  ⟨by decide, by decide⟩

/-- C8 (amended): only the six 32-bit header-field reads are bounds-checked
— a GLB-header or chunk-header read past the buffer's end fails with
Node's out-of-range error; the chunk-data reads are `subarray` slices,
which are clamped to the available bytes (safe-slice) and never fail.
Stated as: (1) a signature-passing buffer shorter than the 20 bytes the
header plus first chunk header need fails out-of-range; (2) so does a
buffer whose metadata bytes parse as JSON (otherwise the `JSON.parse`
throw of line 49 preempts the later reads) and whose second-chunk header
read starts before the declared total length but runs past the end;
(3) every successful parse returns the metadata bytes and binary bytes as
clamped slices of the buffer.  Each part holds for every `JSON.parse`
success oracle. -/
theorem c8_truncated_reads_amended :
    (∀ (jsonParse : List Nat → Bool) (glb : List Nat),
        (glb.take 4).map (fun b => b % 128) = [103, 108, 84, 70] →
        glb.length < 20 → parseGLB jsonParse glb = Except.error GLBError.outOfRange) ∧
    (∀ (jsonParse : List Nat → Bool) (glb : List Nat),
        (glb.take 4).map (fun b => b % 128) = [103, 108, 84, 70] →
        20 ≤ glb.length → le32 glb 16 = 0x4e4f534a →
        jsonParse ((glb.drop 20).take (le32 glb 12)) = true →
        20 + le32 glb 12 < le32 glb 8 → glb.length < 28 + le32 glb 12 →
        parseGLB jsonParse glb = Except.error GLBError.outOfRange) ∧
    (∀ (jsonParse : List Nat → Bool) (glb : List Nat) (r : GLBParseOk),
        parseGLB jsonParse glb = Except.ok r →
        r.jsonData = (glb.drop 20).take (le32 glb 12) ∧
        ∀ bb, r.binaryBuffer = some bb →
          bb = (glb.drop (28 + le32 glb 12)).take (le32 glb (20 + le32 glb 12))) := by
  refine ⟨?_, ?_, ?_⟩
  · intro jsonParse glb hsig hlen
    rw [parseGLB_eq_spec]
    unfold parseGLBSpec
    rw [if_neg (not_not_intro hsig), if_pos hlen]
  · intro jsonParse glb hsig hlen hty hjson hoff hend
    rw [parseGLB_eq_spec]
    unfold parseGLBSpec
    rw [if_neg (not_not_intro hsig), if_neg (by omega), if_neg (not_not_intro hty),
      if_neg (not_not_intro hjson), if_pos (by omega), if_pos (by omega)]
  · intro jsonParse glb r h
    rw [parseGLB_eq_spec] at h
    unfold parseGLBSpec at h
    split_ifs at h with h1 h2 h3 h4 h5 h6 h7
    all_goals injection h with h
    all_goals subst h
    all_goals refine ⟨rfl, fun bb hbb => ?_⟩
    all_goals try exact Option.noConfusion hbb
    rw [show 28 + le32 glb 12 = 12 + (8 + le32 glb 12) + 8 from by omega,
      show 20 + le32 glb 12 = 12 + (8 + le32 glb 12) from by omega]
    injection hbb with hbb
    exact hbb.symm

/-- C8 witness: a concrete application of part (1) — the bare 4-byte
signature fails out-of-range on the total-length read. -/
theorem c8_truncated_reads_witness :
    parseGLB jsonAcceptsEmptyObject [103, 108, 84, 70] =
      Except.error GLBError.outOfRange :=
  c8_truncated_reads_amended.1 jsonAcceptsEmptyObject [103, 108, 84, 70]
    (by decide) (by decide)

/-! ### C9 — the declared total length -/

/-- C9 counterexample: a 22-byte container whose declared total length
(little-endian 32-bit field at offset 8) is 0 — inconsistent with the
chunk table, which occupies bytes 12–21 — yet `parseGLB` does not fail
before reading a chunk: it reads the first chunk and succeeds, returning
its `{}` payload (valid JSON, accepted by the real `JSON.parse` and by
the concrete oracle alike). -/
theorem c9_total_length_counterexample :
    le32 [103, 108, 84, 70, 2, 0, 0, 0, 0, 0, 0, 0, 2, 0, 0, 0, 74, 83, 79, 78, 123, 125] 8 = 0 ∧
      ([103, 108, 84, 70, 2, 0, 0, 0, 0, 0, 0, 0, 2, 0, 0, 0,
          74, 83, 79, 78, 123, 125] : List Nat).length = 22 ∧
      parseGLB jsonAcceptsEmptyObject
          [103, 108, 84, 70, 2, 0, 0, 0, 0, 0, 0, 0, 2, 0, 0, 0,
            74, 83, 79, 78, 123, 125] =
        Except.ok ⟨[123, 125], none⟩ :=
  ⟨by decide, by decide, by decide⟩

/-- C9 (amended): the declared total length is never validated against the
chunk table; its only use is to gate the second-chunk read (attempted
exactly when `12 + 8 + chunk1Length < totalLength`).  In particular, for
every signature-passing buffer long enough for the first chunk header,
with the metadata tag in place, metadata bytes that parse as JSON (the
line-49 `JSON.parse` must not throw) and a declared total length that
does not reach past the first chunk, `parseGLB` succeeds — reading the
first chunk and returning no binary range — instead of failing before any
chunk is read.  This holds for every `JSON.parse` success oracle. -/
theorem c9_total_length_amended (jsonParse : List Nat → Bool) (glb : List Nat)
    (hsig : (glb.take 4).map (fun b => b % 128) = [103, 108, 84, 70])
    (hlen : 20 ≤ glb.length) (hty : le32 glb 16 = 0x4e4f534a)
    (hjson : jsonParse ((glb.drop 20).take (le32 glb 12)) = true)
    (hshort : ¬20 + le32 glb 12 < le32 glb 8) :
    parseGLB jsonParse glb = Except.ok ⟨(glb.drop 20).take (le32 glb 12), none⟩ := by
  rw [parseGLB_eq_spec]
  unfold parseGLBSpec
  rw [if_neg (not_not_intro hsig), if_neg (by omega), if_neg (not_not_intro hty),
    if_neg (not_not_intro hjson), if_neg (by omega)]

/-- C9 witness: the amended statement applied to the counterexample's
concrete buffer. -/
theorem c9_total_length_witness :
    parseGLB jsonAcceptsEmptyObject
        [103, 108, 84, 70, 2, 0, 0, 0, 0, 0, 0, 0, 2, 0, 0, 0,
          74, 83, 79, 78, 123, 125] =
      Except.ok ⟨[123, 125], none⟩ :=
  (c9_total_length_amended jsonAcceptsEmptyObject
      [103, 108, 84, 70, 2, 0, 0, 0, 0, 0, 0, 0, 2, 0, 0, 0, 74, 83, 79, 78, 123, 125]
      (by decide) (by decide) (by decide) (by decide) (by decide)).trans (by decide)

/-! ### C3 — unrecognized component-type code -/

/-- C3: for every accessor whose component-type code is not one of the six
recognized codes, `extractAccessorData` returns — for every buffer-view and
every binary buffer, without reading a byte — the error-only result whose
message is `Unknown component type: <code>`; it neither throws (no
`rangeThrow`) nor populates any other field (the `error` constructor
carries nothing else). -/
theorem c3_unknown_component_type (accessor : Accessor) (bufferView : BufferView)
    (bin : List Nat) (h : COMPONENT_TYPES accessor.componentType = none) :
    extractAccessorData accessor bufferView bin =
      DecodeResult.error ("Unknown component type: " ++ toString accessor.componentType) := by
  unfold extractAccessorData
  rw [h]

/-- C3 witness: the spec's example code 9999, decoded against an arbitrary
3-byte buffer. -/
theorem c3_unknown_component_type_witness :
    extractAccessorData ⟨9999, "VEC3", 5, none, none, none⟩ ⟨none⟩ [1, 2, 3] =
      DecodeResult.error "Unknown component type: 9999" :=
  (c3_unknown_component_type ⟨9999, "VEC3", 5, none, none, none⟩ ⟨none⟩ [1, 2, 3]
    rfl).trans (by decide)

/-! ### C10 — recognized code, unrecognized type shape -/

/-- C10: with a recognized component-type code but a type-shape tag
outside the seven recognized shapes, `extractAccessorData` neither throws
nor errors: the `undefined` per-element component count makes the computed
byte window empty (`NaN` byte length, `subarray` end coerced to 0), so the
result carries `values = []` with the descriptor's type, resolved
component-type name, count, min and max echoed. -/
theorem c10_unknown_shape (accessor : Accessor) (bufferView : BufferView)
    (bin : List Nat) (ct : CompTypeEntry)
    (hct : COMPONENT_TYPES accessor.componentType = some ct)
    (hts : TYPE_SIZES accessor.type = none) :
    extractAccessorData accessor bufferView bin =
      DecodeResult.ok (DecodedAccessor.mk accessor.type ct.name accessor.count
        accessor.min accessor.max (some []) none) := by
  unfold extractAccessorData
  rw [hct]
  simp [hts, rawWindow, groupWindow, toComponents, TRUNCATE_LIMIT]

/-- C10 witness: a FLOAT accessor with the unrecognized shape `VEC5`
decodes to an empty `values` list with every descriptor field echoed. -/
theorem c10_unknown_shape_witness :
    extractAccessorData ⟨5126, "VEC5", 7, some 3, some [1], some [2]⟩ ⟨some 4⟩ [9, 9, 9] =
      DecodeResult.ok (DecodedAccessor.mk "VEC5" "FLOAT" 7
        (some [1]) (some [2]) (some []) none) :=
  c10_unknown_shape ⟨5126, "VEC5", 7, some 3, some [1], some [2]⟩ ⟨some 4⟩ [9, 9, 9]
    ⟨"FLOAT", 4, .f32⟩ rfl rfl

/-! ### C5 — slicing past the buffer's end -/

/-- C5 counterexample: a count-1 scalar FLOAT accessor over a 2-byte
buffer.  The computed window `[0, 4)` extends past the buffer's end, the
clamped slice holds 2 bytes, and `new Float32Array(arrayBuffer)` throws a
`RangeError` (2 is not a multiple of 4) — the decode fails instead of
producing a shorter result, refuting the claim for this recognized
component type and shape. -/
theorem c5_clamped_window_counterexample :
    ([0, 0] : List Nat).length <
        accessorByteOffset ⟨5126, "SCALAR", 1, none, none, none⟩ ⟨none⟩ + 1 * (4 * 1) ∧
      extractAccessorData ⟨5126, "SCALAR", 1, none, none, none⟩ ⟨none⟩ [0, 0] =
        DecodeResult.rangeThrow :=
  ⟨by decide, by decide⟩

/-- C5 (amended): the slice itself is safe — the window is clamped to the
bytes available after the offset and never reads outside the buffer — and
when the clamped window's byte length is a multiple of the component size
the decode succeeds on the shorter window; but when it is not a multiple
(possible for the 2- and 4-byte component types), the typed-array
reinterpretation throws a `RangeError` instead of producing a result. -/
theorem c5_clamped_window_amended (accessor : Accessor) (bufferView : BufferView)
    (bin : List Nat) (ct : CompTypeEntry) (ts : Nat)
    (hct : COMPONENT_TYPES accessor.componentType = some ct)
    (hts : TYPE_SIZES accessor.type = some ts) :
    (rawWindow ct (some ts) accessor.count (accessorByteOffset accessor bufferView)
        bin).length ≤ bin.length - accessorByteOffset accessor bufferView ∧
    ((rawWindow ct (some ts) accessor.count (accessorByteOffset accessor bufferView)
          bin).length % ct.size = 0 →
        decodedGroups accessor bufferView bin =
          some (groupValues (toComponents ct.kind (rawWindow ct (some ts) accessor.count
            (accessorByteOffset accessor bufferView) bin)) ts) ∧
        ∃ d, extractAccessorData accessor bufferView bin = DecodeResult.ok d) ∧
    ((rawWindow ct (some ts) accessor.count (accessorByteOffset accessor bufferView)
          bin).length % ct.size ≠ 0 →
        extractAccessorData accessor bufferView bin = DecodeResult.rangeThrow) := by
  refine ⟨?_, ?_, ?_⟩
  · simp [rawWindow, List.length_take, List.length_drop]
  · intro hmod
    constructor
    · unfold decodedGroups
      simp only [hct, hts]
      rw [if_neg (not_not_intro hmod)]
      rfl
    · unfold extractAccessorData
      simp only [hct, hts]
      rw [if_neg (not_not_intro hmod)]
      split
      · exact ⟨_, rfl⟩
      · exact ⟨_, rfl⟩
  · intro hmod
    unfold extractAccessorData
    simp only [hct, hts]
    rw [if_pos hmod]

/-- C5 witness: the amended statement applied to an UNSIGNED_SHORT VEC3
accessor over a 3-byte buffer — the clamped 3-byte window is not a
multiple of 2, so the decode throws. -/
theorem c5_clamped_window_witness :
    extractAccessorData ⟨5123, "VEC3", 1, none, none, none⟩ ⟨none⟩ [0, 0, 0] =
      DecodeResult.rangeThrow :=
  (c5_clamped_window_amended ⟨5123, "VEC3", 1, none, none, none⟩ ⟨none⟩ [0, 0, 0]
    ⟨"UNSIGNED_SHORT", 2, .u16⟩ 3 rfl rfl).2.2 (by decide)

/-! ### C2 — `values` versus `truncatedValues` -/

/-- C2: every successful decode populates exactly one of the two value
fields; when the grouped values computed before truncation number more
than the limit (20), the result carries `truncatedValues` with exactly the
first 20 groups and no `values`; otherwise (including exactly 20) it
carries `values` with all groups and no `truncatedValues`. -/
theorem c2_values_vs_truncated :
    (∀ (accessor : Accessor) (bufferView : BufferView) (bin : List Nat) (d : DecodedAccessor),
        extractAccessorData accessor bufferView bin = DecodeResult.ok d →
        (d.values.isSome ∧ d.truncatedValues = none) ∨
          (d.values = none ∧ d.truncatedValues.isSome)) ∧
    (∀ (accessor : Accessor) (bufferView : BufferView) (bin : List Nat)
        (gs : List GroupedValue),
        decodedGroups accessor bufferView bin = some gs →
        ∃ d, extractAccessorData accessor bufferView bin = DecodeResult.ok d ∧
          (TRUNCATE_LIMIT < gs.length →
              d.truncatedValues = some (gs.take TRUNCATE_LIMIT) ∧ d.values = none) ∧
          (gs.length ≤ TRUNCATE_LIMIT →
              d.values = some gs ∧ d.truncatedValues = none)) := by
  constructor
  · intro accessor bufferView bin d h
    unfold extractAccessorData at h
    rcases hct : COMPONENT_TYPES accessor.componentType with _ | ct <;> simp only [hct] at h
    · exact DecodeResult.noConfusion h
    · split at h
      · exact DecodeResult.noConfusion h
      · split at h <;> (injection h with h; subst h)
        · exact Or.inr ⟨rfl, rfl⟩
        · exact Or.inl ⟨rfl, rfl⟩
  · intro accessor bufferView bin gs h
    unfold decodedGroups at h
    rcases hct : COMPONENT_TYPES accessor.componentType with _ | ct <;> simp only [hct] at h
    · exact Option.noConfusion h
    · unfold extractAccessorData
      simp only [hct]
      split at h
      · exact Option.noConfusion h
      · next hmod =>
        injection h with h
        rw [if_neg hmod]
        subst h
        by_cases hbig : (groupWindow ct (TYPE_SIZES accessor.type)
            (rawWindow ct (TYPE_SIZES accessor.type) accessor.count
              (accessorByteOffset accessor bufferView) bin)).length > TRUNCATE_LIMIT
        · rw [if_pos hbig]
          exact ⟨_, rfl, fun _ => ⟨rfl, rfl⟩, fun hle => absurd hbig (not_lt.mpr hle)⟩
        · rw [if_neg hbig]
          exact ⟨_, rfl, fun hgt => absurd hgt hbig, fun _ => ⟨rfl, rfl⟩⟩

/-- C2 witness: part one applied at the spec's truncation boundary — a
21-element scalar accessor yields `truncatedValues` only. -/
theorem c2_values_vs_truncated_witness :
    (DecodedAccessor.mk "SCALAR" "UNSIGNED_BYTE" 21 none none none
        (some (List.replicate 20 (GroupedValue.num (ComponentValue.int 7))))).values.isSome ∧
      (DecodedAccessor.mk "SCALAR" "UNSIGNED_BYTE" 21 none none none
        (some (List.replicate 20 (GroupedValue.num (ComponentValue.int 7))))).truncatedValues
          = none ∨
    (DecodedAccessor.mk "SCALAR" "UNSIGNED_BYTE" 21 none none none
        (some (List.replicate 20 (GroupedValue.num (ComponentValue.int 7))))).values = none ∧
      (DecodedAccessor.mk "SCALAR" "UNSIGNED_BYTE" 21 none none none
        (some (List.replicate 20 (GroupedValue.num (ComponentValue.int 7))))).truncatedValues.isSome :=
  c2_values_vs_truncated.1 ⟨5121, "SCALAR", 21, none, none, none⟩ ⟨none⟩
    (List.replicate 21 7)
    (DecodedAccessor.mk "SCALAR" "UNSIGNED_BYTE" 21 none none none
      (some (List.replicate 20 (GroupedValue.num (ComponentValue.int 7)))))
    (by decide)

/-! ### C4 — absolute byte offset and window length -/

/-- C4: with both lookups recognized, the decode reads only the byte
window starting at `bufferView.byteOffset (default 0) +
accessor.byteOffset (default 0)` of length
`count * componentByteSize * componentsPerElement` — the result is a
function of that window alone; and in the spec's concrete instance (a
count-1 scalar FLOAT accessor, buffer-view offset 100, accessor offset 8)
exactly bytes `[108, 112)` are read: the decoded value is the
little-endian 32-bit pattern of those four bytes. -/
theorem c4_byte_window (accessor : Accessor) (bufferView : BufferView)
    (ct : CompTypeEntry) (ts : Nat)
    (hct : COMPONENT_TYPES accessor.componentType = some ct)
    (hts : TYPE_SIZES accessor.type = some ts) :
    (∀ bin₁ bin₂ : List Nat,
        (bin₁.drop (accessorByteOffset accessor bufferView)).take
            (accessor.count * (ct.size * ts)) =
          (bin₂.drop (accessorByteOffset accessor bufferView)).take
            (accessor.count * (ct.size * ts)) →
        extractAccessorData accessor bufferView bin₁ =
          extractAccessorData accessor bufferView bin₂) ∧
    (∀ bin : List Nat, 112 ≤ bin.length →
        extractAccessorData ⟨5126, "SCALAR", 1, some 8, none, none⟩ ⟨some 100⟩ bin =
          DecodeResult.ok (DecodedAccessor.mk "SCALAR" "FLOAT" 1 none none
            (some [GroupedValue.num (ComponentValue.floatBits
              (decodeLE ((bin.drop 108).take 4)))]) none)) := by
  constructor
  · intro bin₁ bin₂ hwin
    have e : rawWindow ct (some ts) accessor.count
        (accessorByteOffset accessor bufferView) bin₁ =
        rawWindow ct (some ts) accessor.count
          (accessorByteOffset accessor bufferView) bin₂ := by
      unfold rawWindow
      exact hwin
    unfold extractAccessorData
    simp only [hct, hts]
    rw [e]
  · intro bin hb
    have hwlen : ((bin.drop 108).take 4).length = 4 := by
      simp only [List.length_take, List.length_drop]
      omega
    have hrw : rawWindow ⟨"FLOAT", 4, CompKind.f32⟩ (some 1) 1
        (accessorByteOffset ⟨5126, "SCALAR", 1, some 8, none, none⟩ ⟨some 100⟩) bin =
        (bin.drop 108).take 4 := by
      unfold rawWindow accessorByteOffset
      norm_num
    have hgw : groupWindow ⟨"FLOAT", 4, CompKind.f32⟩ (some 1) ((bin.drop 108).take 4) =
        [GroupedValue.num (ComponentValue.floatBits (decodeLE ((bin.drop 108).take 4)))] := by
      unfold groupWindow toComponents groupValues
      rw [hwlen]
      norm_num [decodeComp, compSize, List.take_take]
      simp [List.range_succ, List.take_take]
    unfold extractAccessorData
    simp only [show COMPONENT_TYPES 5126 = some ⟨"FLOAT", 4, CompKind.f32⟩ from rfl,
      show TYPE_SIZES "SCALAR" = some 1 from rfl]
    rw [hrw, if_neg (by rw [hwlen]; decide), hgw, if_neg (by simp [TRUNCATE_LIMIT])]

/-- C4 witness: the concrete instance evaluated on the buffer
`0, 1, …, 111`: bytes 108–111 are `108, 109, 110, 111`, read as one
little-endian 32-bit float pattern. -/
theorem c4_byte_window_witness :
    extractAccessorData ⟨5126, "SCALAR", 1, some 8, none, none⟩ ⟨some 100⟩ (List.range 112) =
      DecodeResult.ok (DecodedAccessor.mk "SCALAR" "FLOAT" 1 none none
        (some [GroupedValue.num (ComponentValue.floatBits
          (decodeLE ((List.range 112 |>.drop 108).take 4)))]) none) :=
  (c4_byte_window ⟨5126, "SCALAR", 1, some 8, none, none⟩ ⟨some 100⟩
    ⟨"FLOAT", 4, CompKind.f32⟩ 1 rfl rfl).2 (List.range 112) (by decide)

/-! ### C1 — the decode yields `count` groups of `componentsPerElement`
components each, in order -/

/-- Helper: with both lookups recognized and the window's length divisible
by the component size, `extractAccessorData` succeeds and its output is
the truncation of the grouped decoded window. -/
theorem extractAccessorData_ok (accessor : Accessor) (bufferView : BufferView)
    (bin : List Nat) (ct : CompTypeEntry) (ts : Nat) (gs0 : List GroupedValue)
    (hct : COMPONENT_TYPES accessor.componentType = some ct)
    (hts : TYPE_SIZES accessor.type = some ts)
    (hmod : ((bin.drop (accessorByteOffset accessor bufferView)).take
        (accessor.count * (ct.size * ts))).length % ct.size = 0)
    (hgs : groupValues (toComponents ct.kind
        ((bin.drop (accessorByteOffset accessor bufferView)).take
          (accessor.count * (ct.size * ts)))) ts = gs0) :
    extractAccessorData accessor bufferView bin =
      if TRUNCATE_LIMIT < gs0.length then
        DecodeResult.ok (DecodedAccessor.mk accessor.type ct.name accessor.count
          accessor.min accessor.max none (some (gs0.take TRUNCATE_LIMIT)))
      else
        DecodeResult.ok (DecodedAccessor.mk accessor.type ct.name accessor.count
          accessor.min accessor.max (some gs0) none) := by
  subst hgs
  have hmod' : ¬(rawWindow ct (some ts) accessor.count
      (accessorByteOffset accessor bufferView) bin).length % ct.size ≠ 0 :=
    not_not_intro hmod
  unfold extractAccessorData
  simp only [hct, hts]
  rw [if_neg hmod']
  rfl

/-- C1: for every accessor with a recognized component-type code and a
recognized type-shape tag, over a binary buffer covering the computed
window, the decode succeeds and yields exactly `count` groups — or
`min(count, 20)` when truncation applies — where a scalar shape emits bare
numbers, every non-scalar group is a `GroupedValue.vec` of exactly
`componentsPerElement` components, and concatenating the retained groups
reproduces the decoded component sequence in its original order (no
row/column reordering for matrices). -/
theorem c1_decode_grouping (accessor : Accessor) (bufferView : BufferView) (bin : List Nat)
    (ct : CompTypeEntry) (ts : Nat)
    (hct : COMPONENT_TYPES accessor.componentType = some ct)
    (hts : TYPE_SIZES accessor.type = some ts)
    (hlen : accessorByteOffset accessor bufferView + accessor.count * (ct.size * ts)
      ≤ bin.length) :
    ∃ d gs,
      extractAccessorData accessor bufferView bin = DecodeResult.ok d ∧
      ((d.values = some gs ∧ d.truncatedValues = none) ∨
        (d.truncatedValues = some gs ∧ d.values = none)) ∧
      gs.length = min accessor.count TRUNCATE_LIMIT ∧
      (ts = 1 → ∀ g ∈ gs, ∃ v, g = GroupedValue.num v) ∧
      (1 < ts → ∀ g ∈ gs, ∃ vs, g = GroupedValue.vec vs ∧ vs.length = ts) ∧
      flattenGroups gs =
        (toComponents ct.kind ((bin.drop (accessorByteOffset accessor bufferView)).take
          (accessor.count * (ct.size * ts)))).take
            (min accessor.count TRUNCATE_LIMIT * ts) := by
  obtain ⟨hsz, hszpos⟩ := COMPONENT_TYPES_size _ _ hct
  have htspos : 1 ≤ ts := TYPE_SIZES_pos _ _ hts
  have hwlen : ((bin.drop (accessorByteOffset accessor bufferView)).take
      (accessor.count * (ct.size * ts))).length = accessor.count * (ct.size * ts) := by
    simp only [List.length_take, List.length_drop]
    omega
  have hassoc : accessor.count * (ct.size * ts) = accessor.count * ts * ct.size := by ring
  have hmod : ((bin.drop (accessorByteOffset accessor bufferView)).take
      (accessor.count * (ct.size * ts))).length % ct.size = 0 := by
    rw [hwlen, hassoc]
    exact Nat.mul_mod_left _ _
  have hflatlen : (toComponents ct.kind ((bin.drop (accessorByteOffset accessor bufferView)).take
      (accessor.count * (ct.size * ts)))).length = accessor.count * ts := by
    rw [toComponents_length, ← hsz, hwlen, hassoc, Nat.mul_div_cancel _ (by omega)]
  have hgs0len : (groupValues (toComponents ct.kind
      ((bin.drop (accessorByteOffset accessor bufferView)).take
        (accessor.count * (ct.size * ts)))) ts).length = accessor.count :=
    groupValues_length_mul ts accessor.count htspos _ hflatlen
  have hok := extractAccessorData_ok accessor bufferView bin ct ts _ hct hts hmod rfl
  by_cases hbig : TRUNCATE_LIMIT < accessor.count
  · rw [if_pos (by rw [hgs0len]; exact hbig)] at hok
    refine ⟨_, _, hok, Or.inr ⟨rfl, rfl⟩, ?_, ?_, ?_, ?_⟩
    · rw [List.length_take, hgs0len]
      omega
    · intro h1 g hg
      subst h1
      have hmem := List.take_subset _ _ hg
      rw [groupValues_scalar] at hmem
      obtain ⟨v, -, rfl⟩ := List.mem_map.mp hmem
      exact ⟨v, rfl⟩
    · intro h2 g hg
      exact groupValues_mem_vec ts accessor.count (by omega) _ hflatlen g
        (List.take_subset _ _ hg)
    · rw [show min accessor.count TRUNCATE_LIMIT = TRUNCATE_LIMIT from by omega]
      exact flattenGroups_take_groupValues ts accessor.count TRUNCATE_LIMIT htspos _
        hflatlen (by omega)
  · rw [if_neg (by rw [hgs0len]; omega)] at hok
    refine ⟨_, _, hok, Or.inl ⟨rfl, rfl⟩, ?_, ?_, ?_, ?_⟩
    · rw [hgs0len]
      omega
    · intro h1 g hg
      subst h1
      rw [groupValues_scalar] at hg
      obtain ⟨v, -, rfl⟩ := List.mem_map.mp hg
      exact ⟨v, rfl⟩
    · intro h2 g hg
      exact groupValues_mem_vec ts accessor.count (by omega) _ hflatlen g hg
    · rw [show min accessor.count TRUNCATE_LIMIT = accessor.count from by omega]
      rw [← List.take_of_length_le (le_of_eq hgs0len)]
      exact flattenGroups_take_groupValues ts accessor.count accessor.count htspos _
        hflatlen le_rfl

/-- C1 witness: a FLOAT `VEC3` accessor with count 2 over a 24-byte zero
buffer — two vec-3 groups, no truncation. -/
theorem c1_decode_grouping_witness :
    ∃ d gs,
      extractAccessorData ⟨5126, "VEC3", 2, none, none, none⟩ ⟨none⟩
          (List.replicate 24 0) = DecodeResult.ok d ∧
      ((d.values = some gs ∧ d.truncatedValues = none) ∨
        (d.truncatedValues = some gs ∧ d.values = none)) ∧
      gs.length = min 2 TRUNCATE_LIMIT ∧
      ((3 : Nat) = 1 → ∀ g ∈ gs, ∃ v, g = GroupedValue.num v) ∧
      ((1 : Nat) < 3 → ∀ g ∈ gs, ∃ vs, g = GroupedValue.vec vs ∧ vs.length = 3) ∧
      flattenGroups gs =
        (toComponents CompKind.f32
          (((List.replicate 24 0 : List Nat).drop 0).take (2 * (4 * 3)))).take
            (min 2 TRUNCATE_LIMIT * 3) :=
  c1_decode_grouping ⟨5126, "VEC3", 2, none, none, none⟩ ⟨none⟩ (List.replicate 24 0)
    ⟨"FLOAT", 4, .f32⟩ 3 rfl rfl (by decide)
